import Mathlib

/-!
Verification of the backend-starter-with-auth HTTP server against its
specification.  The Go source is shallowly embedded: each handler becomes a
pure Lean function from the inputs it actually reads (environment values,
results of external library calls) to a response value; process termination
via log.Fatal becomes an explicit `fatal` outcome.
-/

namespace Starter

/-- An HTTP response as assembled by a handler: the status code it writes
(200 implicitly on first body write when WriteHeader is never called),
the headers the handler itself sets, and the body bytes it writes.
Headers written by external libraries (gothic session cookies) and the
net/http content sniffer are outside the handler code and not modelled. -/
structure Response where
  status : Nat
  headers : List (String × String)
  body : String
deriving DecidableEq

/-- Outcome of running a handler: either a response, or process termination
(the Go code calls log.Fatal, which exits the process). -/
inductive HandlerOutcome where
  | fatal : HandlerOutcome
  | resp : Response → HandlerOutcome
deriving DecidableEq

/-! ## JSON marshalling (embedding of encoding/json.Marshal for map[string]string)

Go serializes a map[string]string as an object with keys in sorted byte
order, escaping quote, backslash, the HTML characters, and control
characters. -/

/-- Lowercase hex digit, as Go's encoder emits in \u00XX escapes. -/
def hexDigitChar (n : Nat) : Char :=
  if n < 10 then Char.ofNat (48 + n) else Char.ofNat (87 + n)

/-- Escaping of one character by Go's JSON encoder (escapeHTML on, the
json.Marshal default). -/
def escapeJsonChar (c : Char) : String :=
  if c = '"' then "\\\""
  else if c = '\\' then "\\\\"
  else if c = '\n' then "\\n"
  else if c = '\r' then "\\r"
  else if c = '\t' then "\\t"
  else if c = '<' then "\\u003c"
  else if c = '>' then "\\u003e"
  else if c = '&' then "\\u0026"
  else if c.toNat < 32 then
    "\\u00" ++ String.singleton (hexDigitChar (c.toNat / 16))
      ++ String.singleton (hexDigitChar (c.toNat % 16))
  else if c.toNat = 8232 then "\\u2028"
  else if c.toNat = 8233 then "\\u2029"
  else String.singleton c

/-- A Go JSON string literal for s. -/
def escapeJsonString (s : String) : String :=
  "\"" ++ String.join (s.data.map escapeJsonChar) ++ "\""

/-- Insert one key/value pair into a key-sorted list. -/
def insertSorted (x : String × String) : List (String × String) → List (String × String)
  | [] => [x]
  | y :: ys => if x.1 ≤ y.1 then x :: y :: ys else y :: insertSorted x ys

/-- Sort pairs by key, as Go's encoder does for map keys. -/
def sortByKey : List (String × String) → List (String × String)
  | [] => []
  | x :: xs => insertSorted x (sortByKey xs)

/-- Embedding of json.Marshal on a map[string]string (the mapping given as
an association list). -/
def goJsonMarshal (m : List (String × String)) : String :=
  "\x7b" ++ String.intercalate ","
      ((sortByKey m).map (fun p => escapeJsonString p.1 ++ ":" ++ escapeJsonString p.2))
    ++ "\x7d"

/-- json.Marshal with its error channel.  For a map[string]string every key
and value is a string, so marshalling cannot fail; the embedding therefore
always returns ok. -/
def goJsonMarshalE (m : List (String × String)) : Except String String :=
  Except.ok (goJsonMarshal m)

/-! ## Handlers from internal/server/routes.go -/

/-- HelloWorldHandler: marshals map[string]string with message -> Hello
World and writes the bytes.  It never calls WriteHeader (so the status is
the implicit 200) and never sets any header; in particular no Content-Type
header is set by the handler. -/
def HelloWorldHandler : Response :=
  { status := 200
    headers := []
    body := goJsonMarshal [("message", "Hello World")] }

/-- healthHandler: marshals s.db.Health(), discarding the marshal error
(jsonResp, _ := json.Marshal(...)), and writes whatever bytes resulted;
the status is the implicit 200 in every case. -/
def healthHandler (health : List (String × String)) : Response :=
  { status := 200
    headers := []
    body := match goJsonMarshalE health with
      | Except.ok s => s
      | Except.error _ => "" }

/-- The user structure returned by gothic.CompleteUserAuth; the handler only
reads name and email (for logging). -/
structure GothUser where
  name : String
  email : String
deriving DecidableEq

/-- getAuthCallbackFunction.  Inputs: whether godotenv.Load succeeded,
the APP_URI environment value, and the result of the external
gothic.CompleteUserAuth call (its error message on failure).
The Go code: on dotenv failure log.Fatal; on auth failure
http.Error(w, "Authentication failed: "+err.Error(), 401) — http.Error sets
text/plain and nosniff headers and appends a newline; on success
http.Redirect(w, r, APP_URI, http.StatusFound) — 302 with a Location
header (the small HTML body net/http generates for GET redirects is
library output and not modelled). -/
def getAuthCallbackFunction (dotenvOk : Bool) (appUri : String)
    (authResult : Except String GothUser) : HandlerOutcome :=
  if dotenvOk then
    match authResult with
    | Except.error msg =>
        HandlerOutcome.resp
          { status := 401
            headers := [("Content-Type", "text/plain; charset=utf-8"),
                        ("X-Content-Type-Options", "nosniff")]
            body := "Authentication failed: " ++ msg ++ "\n" }
    | Except.ok _ =>
        HandlerOutcome.resp
          { status := 302
            headers := [("Location", appUri)]
            body := "" }
  else HandlerOutcome.fatal

/-- logout handler.  Inputs: whether godotenv.Load succeeded and the
POST_LOGOUT_REDIRECT_URL environment value (os.Getenv yields "" when the
variable is unset).  The Go code: on dotenv failure log.Fatal; otherwise it
calls gothic.Logout (external session teardown, ignored error, not
modelled), sets the Location header to the environment value unchanged,
and writes status 307. -/
def logout (dotenvOk : Bool) (postLogoutRedirectURL : String) : HandlerOutcome :=
  if dotenvOk then
    HandlerOutcome.resp
      { status := 307
        headers := [("Location", postLogoutRedirectURL)]
        body := "" }
  else HandlerOutcome.fatal

/-! ## CORS origin list from RegisterRoutes

The Go code reads CORS_ALLOWED_ORIGINS, and when it is non-empty splits on
",", trims each piece with strings.TrimSpace and keeps the non-empty ones;
when the resulting list is empty it uses the wildcard defaults.  Strings
are modelled as character lists so that strings.Split and strings.TrimSpace
can be embedded directly. -/

/-- unicode.IsSpace on the characters strings.TrimSpace trims (the Latin-1
range: space, tab, newline, vertical tab, form feed, carriage return,
NEL, NBSP). -/
def goIsSpace (c : Char) : Bool :=
  c = ' ' || c = '\t' || c = '\n' || c = '\r'
    || c = Char.ofNat 11 || c = Char.ofNat 12
    || c = Char.ofNat 133 || c = Char.ofNat 160

/-- Helper for strings.Split(s, ","): returns the piece up to the first
comma and the list of pieces after it. -/
def splitCommaAux : List Char → List Char × List (List Char)
  | [] => ([], [])
  | c :: cs =>
    if c = ',' then ([], (splitCommaAux cs).1 :: (splitCommaAux cs).2)
    else (c :: (splitCommaAux cs).1, (splitCommaAux cs).2)

/-- strings.Split(s, ","): the list of comma-separated pieces (always
non-empty; Split("") = [""]). -/
def goSplitComma (s : List Char) : List (List Char) :=
  (splitCommaAux s).1 :: (splitCommaAux s).2

/-- strings.TrimSpace: drop leading and trailing space characters. -/
def goTrimSpace (s : List Char) : List Char :=
  ((s.dropWhile goIsSpace).reverse.dropWhile goIsSpace).reverse

/-- The wildcard default allow-list. -/
def defaultOrigins : List (List Char) :=
  [("https://*").data, ("http://*").data]

/-- The CORS allow-list RegisterRoutes computes from the
CORS_ALLOWED_ORIGINS value (os.Getenv yields [] for an unset variable):
non-empty trimmed entries when the value is non-empty, and the wildcard
defaults whenever no entry was collected. -/
def corsAllowedOrigins (v : List Char) : List (List Char) :=
  let entries :=
    if v = [] then []
    else ((goSplitComma v).map goTrimSpace).filter (fun e => !e.isEmpty)
  if entries = [] then defaultOrigins else entries

/-- The allow-list as the specification describes it: the comma-separated
entries of the value with surrounding whitespace trimmed, the defaults
exactly when the variable is unset or the empty string. -/
def specCorsOrigins (v : List Char) : List (List Char) :=
  if v = [] then defaultOrigins else (goSplitComma v).map goTrimSpace

/-- The allow-list as amended: trimmed entries with empty ones dropped,
defaults whenever no entry survives. -/
def specCorsOriginsAmended (v : List Char) : List (List Char) :=
  let entries := ((goSplitComma v).map goTrimSpace).filter (fun e => !e.isEmpty)
  if entries = [] then defaultOrigins else entries

/-! ## Auth initializer from internal/auth/auth.go -/

/-- Session cookie policy values set on the gorilla cookie store. -/
inductive SameSite where
  | defaultMode : SameSite
  | lax : SameSite
  | strict : SameSite
  | noneMode : SameSite
deriving DecidableEq

/-- The cookie-store options NewAuth configures. -/
structure SessionOptions where
  maxAge : Nat
  path : String
  httpOnly : Bool
  secure : Bool
  sameSite : SameSite
deriving DecidableEq

/-- A registered OAuth provider (goth provider configuration). -/
structure GothProvider where
  name : String
  clientId : String
  clientSecret : String
  callbackURL : String
deriving DecidableEq

/-- The process-wide state NewAuth leaves behind: the gothic store options
and the goth provider registry. -/
structure AuthState where
  store : SessionOptions
  providers : List GothProvider
deriving DecidableEq

/-- Outcome of NewAuth: either the configured state, or process
termination; the function returns no value and has no error channel. -/
inductive AuthOutcome where
  | fatal : AuthOutcome
  | done : AuthState → AuthOutcome
deriving DecidableEq

/-- const MaxAge = 86400 * 30. -/
def MaxAge : Nat := 86400 * 30

/-- const IsProd = false. -/
def IsProd : Bool := false

/-- NewAuth. Inputs: whether godotenv.Load succeeded and the process
environment.  On dotenv failure log.Fatal; otherwise it builds the cookie
store (MaxAge, path "/", http-only, secure = IsProd, SameSite = Lax) and
registers the single Google provider with the callback URL templated on
the PORT environment value. -/
def NewAuth (dotenvOk : Bool) (env : String → String) : AuthOutcome :=
  if dotenvOk then
    AuthOutcome.done
      { store :=
          { maxAge := MaxAge
            path := "/"
            httpOnly := true
            secure := IsProd
            sameSite := SameSite.lax }
        providers :=
          [{ name := "google"
             clientId := env ("GOOGLE_CLIENT_ID")
             clientSecret := env ("GOOGLE_CLIENT_SECRET")
             callbackURL := "http://localhost:" ++ env ("PORT") ++ "/auth/google/callback" }] }
  else AuthOutcome.fatal

/-! ## Server construction -/

/-- Decimal value of a digit string. -/
def digitsToNat (l : List Char) : Nat :=
  l.foldl (fun acc c => 10 * acc + (c.toNat - 48)) 0

/-- Modelled from the spec: internal/server/server.go (NewServer) is not
among the provided sources — only its tests are.  Section 4.1 of the spec:
the PORT string is parsed numerically; this is the successful parse of a
non-negative integer (non-empty, all decimal digits), none otherwise. -/
def portNat? (s : String) : Option Nat :=
  if (!s.data.isEmpty) && s.data.all Char.isDigit then some (digitsToNat s.data)
  else none

/-- Modelled from the spec: the numeric parse with the zero-value fallback
(absent, i.e. empty from os.Getenv, or non-numeric treated as port 0). -/
def parsePort (s : String) : Nat :=
  (portNat? s).getD 0

/-- Modelled from the spec: the address the constructed server binds,
":" followed by the parsed port rendered in decimal (":0" on the
fallback). -/
def serverAddr (portEnv : String) : String :=
  ":" ++ Nat.repr (parsePort portEnv)

/-- A response carries a JSON content-type: some Content-Type header whose
value mentions json. -/
def CarriesJsonContentType (r : Response) : Prop :=
  ∃ v, ("Content-Type", v) ∈ r.headers ∧ ∃ pre post, v = pre ++ "json" ++ post

/-- A concrete environment for the C8 witness. -/
def sampleEnv : String → String := fun k =>
  if k = "PORT" then "3000"
  else if k = "GOOGLE_CLIENT_ID" then "sample-id"
  else if k = "GOOGLE_CLIENT_SECRET" then "sample-secret"
  else ""

/-- The auth state NewAuth produces under sampleEnv. -/
def sampleAuthState : AuthState :=
  { store :=
      { maxAge := 86400 * 30
        path := "/"
        httpOnly := true
        secure := false
        sameSite := SameSite.lax }
    providers :=
      [{ name := "google"
         clientId := "sample-id"
         clientSecret := "sample-secret"
         callbackURL := "http://localhost:3000/auth/google/callback" }] }

/-! ## Theorems -/

/-- C1 counterexample: the hello-world response (the handler ignores its
request, so this is the response to every dispatched request) does not
satisfy the claimed conjunction, because the handler sets no Content-Type
header at all, so no JSON content-type is carried. -/
theorem helloWorld_no_json_contentType :
    ¬ (HelloWorldHandler.status = 200 ∧
       HelloWorldHandler.body = "\x7b\"message\":\"Hello World\"\x7d" ∧
       CarriesJsonContentType HelloWorldHandler) := by
  intro h
  obtain ⟨-, -, v, hv, -⟩ := h
  simp [HelloWorldHandler] at hv

/-- C1 amended: the hello-world response body is exactly the JSON object
with message Hello World and the status is 200, but the handler sets no
headers, in particular no Content-Type. -/
theorem helloWorld_response_amended :
    HelloWorldHandler.status = 200 ∧
    HelloWorldHandler.body = "\x7b\"message\":\"Hello World\"\x7d" ∧
    HelloWorldHandler.headers = [] :=
  ⟨rfl, rfl, rfl⟩

/-- C2 counterexample: when the dotenv load fails with the redirect URL
configured, the logout handler terminates the process instead of
responding 307, so a 307 response is not the only possible outcome. -/
theorem logout_fatal_counterexample :
    logout false ("https://app.example/login") = HandlerOutcome.fatal ∧
    ¬ ∃ r, logout false ("https://app.example/login") = HandlerOutcome.resp r ∧
        r.status = 307 := by
  refine ⟨rfl, ?_⟩
  rintro ⟨r, hr, -⟩
  simp [logout] at hr

/-- C2 amended: when the dotenv load succeeds the logout handler responds
307 with the Location header equal to the configured URL; when the dotenv
load fails the process terminates and no response is issued. -/
theorem logout_redirect_amended (d : Bool) (url : String) :
    (d = true → logout d url =
      HandlerOutcome.resp { status := 307, headers := [("Location", url)], body := "" }) ∧
    (d = false → logout d url = HandlerOutcome.fatal) := by
  constructor
  · intro h; subst h; rfl
  · intro h; subst h; rfl

/-- C2 witness: the amended theorem applied at a concrete URL with a
successful dotenv load. -/
theorem logout_redirect_amended_witness :
    logout true ("https://app.example/login") =
      HandlerOutcome.resp
        { status := 307
          headers := [("Location", "https://app.example/login")]
          body := "" } :=
  (logout_redirect_amended true ("https://app.example/login")).1 rfl

/-- C3 counterexample: for the value consisting of a single comma, the
code falls back to the wildcard defaults while the claimed allow-list is
the two empty trimmed entries. -/
theorem cors_origins_counterexample :
    corsAllowedOrigins [','] ≠ specCorsOrigins [','] := by decide

/-- C3 amended: for every CORS_ALLOWED_ORIGINS value the allow-list is the
comma-separated entries with surrounding whitespace trimmed and empty
entries dropped, and the wildcard defaults whenever no entry survives
(unset, empty, or only commas and whitespace). -/
theorem cors_origins_amended (v : List Char) :
    corsAllowedOrigins v = specCorsOriginsAmended v := by
  cases v with
  | nil => rfl
  | cons a as => rfl

/-- C4: for every PORT value that parses as a non-negative integer v the
bound address is colon-v; for every non-numeric or absent value it is
":0". -/
theorem server_addr_from_port (s : String) :
    (∀ v, portNat? s = some v → serverAddr s = ":" ++ Nat.repr v) ∧
    (portNat? s = none → serverAddr s = ":0") := by
  constructor
  · intro v h
    simp [serverAddr, parsePort, h]
  · intro h
    simp [serverAddr, parsePort, h]
    rfl

/-- C4 witness: the theorem applied at the concrete PORT values 3000 and
invalid. -/
theorem server_addr_from_port_witness :
    (serverAddr ("3000") = ":3000") ∧ (serverAddr ("invalid") = ":0") :=
  ⟨((server_addr_from_port ("3000")).1 3000 (by decide)).trans (by decide),
   (server_addr_from_port ("invalid")).2 (by decide)⟩

/-- C5: in a callback request that reaches the complete-auth call (the
dotenv load succeeded): on success the handler responds 302 with Location
equal to the APP_URI value; on failure it responds 401 with a body
containing the library error message, is not a 302, and sets no Location
header. -/
theorem authCallback_success_failure (appUri msg : String) (u : GothUser) :
    getAuthCallbackFunction true appUri (Except.ok u) =
      HandlerOutcome.resp { status := 302, headers := [("Location", appUri)], body := "" } ∧
    ∃ r, getAuthCallbackFunction true appUri (Except.error msg) = HandlerOutcome.resp r ∧
      r.status = 401 ∧ r.status ≠ 302 ∧
      (∃ pre post, r.body = pre ++ msg ++ post) ∧
      ∀ w, ("Location", w) ∉ r.headers := by
  refine ⟨rfl, ⟨_, rfl, ?_, ?_, ⟨"Authentication failed: ", "\n", rfl⟩, ?_⟩⟩
  · rfl
  · show (401 : Nat) ≠ 302
    decide
  intro w hw
  rcases List.mem_cons.mp hw with h | hw2
  · exact (by decide : ("Location" : String) ≠ "Content-Type") (congrArg Prod.fst h)
  · rcases List.mem_cons.mp hw2 with h | h
    · exact (by decide : ("Location" : String) ≠ "X-Content-Type-Options")
        (congrArg Prod.fst h)
    · simp at h

/-- C6: the health response has status 200 and its body is the collaborator
mapping serialized as JSON; the marshal error channel never fires for a
string mapping, and the handler discards it, so no error response exists. -/
theorem healthHandler_serializes (health : List (String × String)) :
    (healthHandler health).status = 200 ∧
    (healthHandler health).body = goJsonMarshal health ∧
    ∀ e, goJsonMarshalE health ≠ Except.error e := by
  refine ⟨rfl, rfl, ?_⟩
  intro e h
  simp [goJsonMarshalE] at h

/-- C7: on a failed dotenv load the auth initializer, the auth-callback
handler and the logout handler each terminate the process; and the auth
initializer has no outcome other than termination or completed
configuration — no error is ever propagated. -/
theorem dotenv_failure_fatal (env : String → String) (appUri url : String)
    (res : Except String GothUser) :
    NewAuth false env = AuthOutcome.fatal ∧
    getAuthCallbackFunction false appUri res = HandlerOutcome.fatal ∧
    logout false url = HandlerOutcome.fatal ∧
    ∀ d : Bool, NewAuth d env = AuthOutcome.fatal ∨
      ∃ st, NewAuth d env = AuthOutcome.done st := by
  refine ⟨rfl, rfl, rfl, ?_⟩
  intro d
  cases d
  · exact Or.inl rfl
  · exact Or.inr ⟨_, rfl⟩

/-- C8: whenever the auth initializer completes, the session store has
max-age 86400 times 30 seconds, cookie path "/", http-only, same-site Lax,
secure equal to the IsProd constant, and the provider registry holds
exactly the Google provider with the callback URL templated on PORT. -/
theorem newAuth_settings (d : Bool) (env : String → String) (st : AuthState)
    (h : NewAuth d env = AuthOutcome.done st) :
    st.store.maxAge = 86400 * 30 ∧ st.store.path = "/" ∧
    st.store.httpOnly = true ∧ st.store.sameSite = SameSite.lax ∧
    st.store.secure = IsProd ∧
    st.providers =
      [{ name := "google"
         clientId := env ("GOOGLE_CLIENT_ID")
         clientSecret := env ("GOOGLE_CLIENT_SECRET")
         callbackURL := "http://localhost:" ++ env ("PORT") ++ "/auth/google/callback" }] := by
  cases d
  · exact AuthOutcome.noConfusion h
  · injection h with h2
    subst h2
    exact ⟨rfl, rfl, rfl, rfl, rfl, rfl⟩

/-- C8 witness: the theorem applied to the concrete environment, its
hypothesis discharged by evaluation. -/
theorem newAuth_settings_witness :
    sampleAuthState.store.maxAge = 86400 * 30 ∧ sampleAuthState.store.path = "/" ∧
    sampleAuthState.store.httpOnly = true ∧
    sampleAuthState.store.sameSite = SameSite.lax ∧
    sampleAuthState.store.secure = IsProd ∧
    sampleAuthState.providers =
      [{ name := "google"
         clientId := sampleEnv ("GOOGLE_CLIENT_ID")
         clientSecret := sampleEnv ("GOOGLE_CLIENT_SECRET")
         callbackURL := "http://localhost:" ++ sampleEnv ("PORT") ++ "/auth/google/callback" }] :=
  newAuth_settings true sampleEnv sampleAuthState (by decide)

/-- C10: when the dotenv load succeeds the logout handler responds 307
with the Location header equal to the configured value unchanged and
unvalidated — in particular, Location is the empty string when
POST_LOGOUT_REDIRECT_URL is unset (os.Getenv yields the empty string). -/
theorem logout_empty_location :
    (∀ url : String, logout true url =
      HandlerOutcome.resp { status := 307, headers := [("Location", url)], body := "" }) ∧
    logout true ("") =
      HandlerOutcome.resp { status := 307, headers := [("Location", "")], body := "" } :=
  ⟨fun _ => rfl, rfl⟩

/-- Every character of every piece produced by splitting a string whose
non-comma characters are all spaces is a space. -/
theorem splitCommaAux_space (v : List Char)
    (h : ∀ c ∈ v, c ≠ ',' → goIsSpace c = true) :
    (∀ c ∈ (splitCommaAux v).1, goIsSpace c = true) ∧
    (∀ p ∈ (splitCommaAux v).2, ∀ c ∈ p, goIsSpace c = true) := by
  induction v with
  | nil =>
    constructor
    · intro c hc
      simp [splitCommaAux] at hc
    · intro p hp
      simp [splitCommaAux] at hp
  | cons a as ih =>
    have ht : ∀ c ∈ as, c ≠ ',' → goIsSpace c = true :=
      fun c hc => h c (List.mem_cons_of_mem a hc)
    obtain ⟨ih1, ih2⟩ := ih ht
    by_cases ha : a = ','
    · constructor
      · intro c hc
        simp [splitCommaAux, ha] at hc
      · intro p hp
        simp only [splitCommaAux, ha, if_pos] at hp
        rcases List.mem_cons.mp hp with hph | hph
        · exact hph ▸ ih1
        · exact ih2 p hph
    · have hsp : goIsSpace a = true := h a (List.mem_cons_self a as) ha
      constructor
      · intro c hc
        simp only [splitCommaAux, ha, if_neg, ite_false] at hc
        rcases List.mem_cons.mp hc with hch | hch
        · exact hch ▸ hsp
        · exact ih1 c hch
      · intro p hp
        simp only [splitCommaAux, ha, if_neg, ite_false] at hp
        exact ih2 p hp

/-- Trimming a piece made of space characters yields the empty piece. -/
theorem trimSpace_of_space (p : List Char) (h : ∀ c ∈ p, goIsSpace c = true) :
    goTrimSpace p = [] := by
  have h1 : p.dropWhile goIsSpace = [] := List.dropWhile_eq_nil_iff.mpr h
  simp [goTrimSpace, h1]

/-- Filtering for non-empty pieces returns nothing when every piece is
empty. -/
theorem filter_nonempty_of_all_nil (l : List (List Char))
    (h : ∀ a ∈ l, a = ([] : List Char)) :
    l.filter (fun e => !e.isEmpty) = [] := by
  induction l with
  | nil => rfl
  | cons a as ih =>
    have ha := h a (List.mem_cons_self a as)
    subst ha
    rw [List.filter_cons]
    simp only [List.isEmpty_nil, Bool.not_true, if_false, ite_false]
    exact ih (fun b hb => h b (List.mem_cons_of_mem _ hb))

/-- C9: every non-empty CORS_ALLOWED_ORIGINS value made only of commas and
space characters also falls back to the wildcard defaults, because no
entry survives trimming. -/
theorem cors_blank_fallback (v : List Char) (h0 : v ≠ [])
    (h : ∀ c ∈ v, c = ',' ∨ goIsSpace c = true) :
    corsAllowedOrigins v = defaultOrigins := by
  have h2 : ∀ c ∈ v, c ≠ ',' → goIsSpace c = true :=
    fun c hc hne => (h c hc).resolve_left hne
  obtain ⟨hA, hB⟩ := splitCommaAux_space v h2
  have hall : ∀ p ∈ goSplitComma v, goTrimSpace p = [] := by
    intro p hp
    rcases List.mem_cons.mp hp with hph | hph
    · exact hph ▸ trimSpace_of_space _ hA
    · exact trimSpace_of_space _ (hB p hph)
  have hmap : ∀ a ∈ (goSplitComma v).map goTrimSpace, a = ([] : List Char) := by
    intro a hma
    rcases List.mem_map.mp hma with ⟨p, hp, hpa⟩
    exact hpa ▸ hall p hp
  have hfil := filter_nonempty_of_all_nil _ hmap
  simp only [corsAllowedOrigins]
  rw [if_neg h0, hfil]
  rfl

/-- C9 witness: the theorem applied at the concrete value of one space and
one comma. -/
theorem cors_blank_fallback_witness :
    corsAllowedOrigins [' ', ','] = defaultOrigins :=
  cors_blank_fallback [' ', ','] (by decide) (by decide)

end Starter
